import Mathlib

/-!
Shallow embedding of the THCO wallet API (src/index.js).

The source file contains two pasted copies of the app; the second copy
(lines 126-320) is the operative one: it defines `verifyHmac`, `getJson`,
`calcPoints` (rate 3), the `POST /shopify/orders-paid` webhook handler and
the `GET /wallet/by-email` query. The Supabase store is modelled as three
in-memory relations (users, wallets, wallet_transactions) with a single
fresh-id counter. JavaScript number arithmetic is modelled exactly over
the rationals; HMAC-SHA256 is kept abstract as a parameter
`hmac : String → String → String` (secret, raw body ↦ base64 digest).
-/

namespace ThcoWallet

/-! ### JavaScript `parseFloat`, modelled exactly

`parseFloat` skips leading whitespace, then reads the longest valid
decimal-literal head of the string: optional sign, digits, optional
fraction, optional exponent; trailing garbage is ignored. If no digits
were read at all the result is NaN, modelled here as `none`. A parsed
value is returned as an exact integer fraction (numerator, positive
power-of-ten denominator); `jsValue` gives the rational it denotes. (The
`Infinity` literal and the precision limits of IEEE doubles are outside
this exact model.) -/

/-- Whitespace skipped by `parseFloat` before the number. -/
def jsSpace (c : Char) : Bool :=
  c == ' ' || c == '\t' || c == '\n' || c == '\r' || c == '\x0b' || c == '\x0c'

/-- Split a run of leading decimal digits off a character list. -/
def splitDigits : List Char → List Char × List Char
  | [] => ([], [])
  | c :: cs =>
    if c.isDigit then
      let p := splitDigits cs
      (c :: p.1, p.2)
    else ([], c :: cs)

/-- Value of a digit run, most significant first. -/
def digitsToNat (l : List Char) : Nat :=
  l.foldl (fun a c => 10 * a + (c.toNat - 48)) 0

/-- Exponent part after the letter `e`/`E`: optional sign then digits;
if no digits follow, `parseFloat` keeps only the head before the `e`,
i.e. the exponent contributes a factor of one. -/
def expValue (cs : List Char) : Int :=
  let p : Int × List Char :=
    match cs with
    | '-' :: r => (-1, r)
    | '+' :: r => (1, r)
    | _ => (1, cs)
  let d := splitDigits p.2
  if d.1.isEmpty then 0 else p.1 * (digitsToNat d.1 : Int)

/-- JavaScript `parseFloat` as an exact fraction; `none` models NaN.
A result `(n, d)` denotes the value `n / d`, with `d` a positive power
of ten. -/
def jsParseFloat (s : String) : Option (Int × Nat) :=
  let cs := s.data.dropWhile jsSpace
  let sg : Int × List Char :=
    match cs with
    | '-' :: r => (-1, r)
    | '+' :: r => (1, r)
    | _ => (1, cs)
  let ip := splitDigits sg.2
  let fp : List Char × List Char :=
    match ip.2 with
    | '.' :: r => splitDigits r
    | _ => ([], ip.2)
  if ip.1.isEmpty && fp.1.isEmpty then none
  else
    let fl := fp.1.length
    let mant : Int := sg.1 * ((digitsToNat ip.1 * 10 ^ fl + digitsToNat fp.1 : Nat) : Int)
    let ev : Int :=
      match fp.2 with
      | 'e' :: r => expValue r
      | 'E' :: r => expValue r
      | _ => 0
    if 0 ≤ ev then some (mant * 10 ^ ev.toNat, 10 ^ fl)
    else some (mant, 10 ^ (fl + (-ev).toNat))

/-- The rational value denoted by a `jsParseFloat` result. -/
def jsValue (p : Int × Nat) : Rat := (p.1 : Rat) / (p.2 : Rat)

/-- `calcPoints` (src/index.js lines 161-165, the operative definition):
`const amount = parseFloat(totalPrice) || 0; const rate = 3;
return Math.floor(amount * rate);`. The argument `order.total_price` may
be absent (`undefined`), in which case `parseFloat` sees the string
`"undefined"` and yields NaN; `|| 0` turns NaN (and a parsed 0 or -0,
on which it is the identity) into 0. `Math.floor(n/d * 3)` is computed
as the Euclidean quotient `(n * 3) / d`, which equals the rational floor
since `d > 0`; `calcPoints_floor` below proves the correspondence. -/
def calcPoints (totalPrice : Option String) : Int :=
  match totalPrice with
  | none => 0
  | some s =>
    match jsParseFloat s with
    | none => 0
    | some p => p.1 * 3 / (p.2 : Int)

/-- The `amount` local of `calcPoints`: the parsed value with NaN
replaced by 0, as a rational. -/
def jsAmount (totalPrice : Option String) : Rat :=
  match totalPrice with
  | none => 0
  | some s =>
    match jsParseFloat s with
    | none => 0
    | some p => jsValue p

/-! ### The persistent store

Three relations, as created by the handlers. Row ids come from one
fresh-id counter `nextId`. -/

/-- A row of the `users` table. -/
structure User where
  id : Nat
  shopify_customer_id : String
  email : Option String
  name : String
deriving DecidableEq, Repr

/-- A row of the `wallets` table. -/
structure Wallet where
  id : Nat
  user_id : Nat
  points : Int
  lifetime_points : Int
  updated_at : Nat
deriving DecidableEq, Repr

/-- A row of the `wallet_transactions` table. -/
structure Txn where
  id : Nat
  wallet_id : Nat
  type : String
  source : String
  shopify_order_id : String
  points_change : Int
  note : String
deriving DecidableEq, Repr

/-- The store: the three relations plus the fresh-id counter. -/
structure Store where
  users : List User
  wallets : List Wallet
  txns : List Txn
  nextId : Nat
deriving DecidableEq, Repr

/-- The store with no rows. -/
def emptyStore : Store := { users := [], wallets := [], txns := [], nextId := 0 }

/-- `supabase.from('users').upsert({shopify_customer_id, email, name},
{onConflict: 'shopify_customer_id'}).select().single()` (lines 192-203):
update the row with the given customer key if one exists, else insert a
fresh row; return the resulting row. When `customer.email` is
`undefined` the serialized upsert row omits the column, so an update
keeps the stored email. -/
def upsertUser (st : Store) (cid : String) (email : Option String) (name : String) :
    User × Store :=
  match st.users.find? (fun u => u.shopify_customer_id == cid) with
  | some u =>
    let u2 : User :=
      { u with
        email := match email with | some e => some e | none => u.email
        name := name }
    (u2, { st with users := st.users.map (fun x => if x.shopify_customer_id == cid then u2 else x) })
  | none =>
    let u2 : User := { id := st.nextId, shopify_customer_id := cid, email := email, name := name }
    (u2, { st with users := st.users ++ [u2], nextId := st.nextId + 1 })

/-- `supabase.from('wallets').select('*').eq('user_id', user.id).single()`
(lines 206-210): the wallet row of the user, when there is one. (The
write path creates at most one wallet per user, so `find?` matches
`.single()` on every store this system builds.) -/
def findWallet (st : Store) (uid : Nat) : Option Wallet :=
  st.wallets.find? (fun w => w.user_id == uid)

/-- Modelled from the spec: wallet creation
(`supabase.from('wallets').insert({user_id: user.id}).select().single()`,
lines 213-217) sends only `user_id`; the remaining columns come from the
database schema's defaults, which are not part of src/. Per the spec
("Creation initializes current and lifetime totals to zero") the new row
has both totals zero; the timestamp default is modelled as 0. -/
def insertWallet (st : Store) (uid : Nat) : Wallet × Store :=
  let w : Wallet :=
    { id := st.nextId, user_id := uid, points := 0, lifetime_points := 0, updated_at := 0 }
  (w, { st with wallets := st.wallets ++ [w], nextId := st.nextId + 1 })

/-- Step 4 of the handler (lines 206-219): find the user's wallet or
create one. -/
def resolveWallet (st : Store) (uid : Nat) : Wallet × Store :=
  match findWallet st uid with
  | some w => (w, st)
  | none => insertWallet st uid

/-- `supabase.from('wallet_transactions').insert({...})` (lines 222-229). -/
def insertTxn (st : Store) (wid : Nat) (ty src oid : String) (pts : Int) (nt : String) :
    Store :=
  { st with
    txns := st.txns ++
      [{ id := st.nextId, wallet_id := wid, type := ty, source := src,
         shopify_order_id := oid, points_change := pts, note := nt }]
    nextId := st.nextId + 1 }

/-- `supabase.from('wallets').update({points, lifetime_points, updated_at})
.eq('id', wallet.id)` (lines 232-239): set the three columns on every row
whose id matches. -/
def updateWallet (st : Store) (wid : Nat) (pts lt : Int) (t : Nat) : Store :=
  { st with
    wallets := st.wallets.map (fun w =>
      if w.id == wid then { w with points := pts, lifetime_points := lt, updated_at := t }
      else w) }

/-! ### Requests and the webhook handler -/

/-- The `customer` object of the order payload. A missing field is
`none`; `id` is kept in its JS-stringified form. -/
structure Customer where
  id : Option String
  email : Option String
  first_name : Option String
  last_name : Option String

/-- The parsed order payload: `order.id` (stringified form when present),
`order.total_price`, `order.customer`. `customer := none` models a falsy
`customer` field (absent or `null`). -/
structure OrderPayload where
  id : Option String
  total_price : Option String
  customer : Option Customer

/-- An inbound webhook request. `secret` is the environment's
`SHOPIFY_WEBHOOK_SECRET` (absent when unset); `payload` is the result of
`JSON.parse` on `rawBody`, `none` when the body is malformed (the parse
throws). -/
structure Request where
  hmacHeader : Option String
  secret : Option String
  rawBody : String
  payload : Option OrderPayload

/-- `String(x)` for an optional stringified value: JS renders a missing
value (`undefined`) as the string `"undefined"`. -/
def jsStringOfOpt (o : Option String) : String := o.getD "undefined"

/-- `` `${customer.first_name || ''} ${customer.last_name || ''}`.trim() ``
(line 183). -/
def normName (c : Customer) : String :=
  (c.first_name.getD "" ++ " " ++ c.last_name.getD "").trim

/-- `verifyHmac` (lines 144-154). `crypto.createHmac('sha256', secret)`
throws when the secret is `undefined`, modelled as `Except.error ()`;
the throw escapes to the handler's catch. With a secret present the
base64 digest of the raw body is compared with the header value; a
missing header compares a string against `undefined`, which is `false`. -/
def verifyHmac (hmac : String → String → String) (req : Request) : Except Unit Bool :=
  match req.secret with
  | none => Except.error ()
  | some s =>
    match req.hmacHeader with
    | none => Except.ok false
    | some h => Except.ok (hmac s req.rawBody == h)

/-- Steps 3-6 of the webhook handler (lines 192-239): upsert the user,
find or create the wallet, append the earn transaction, update the
balance. Returns the store after all four store calls. -/
def applyOrder (st : Store) (order : OrderPayload) (customer : Customer) (now : Nat) :
    Store :=
  let points := calcPoints order.total_price
  let p1 := upsertUser st (jsStringOfOpt customer.id) customer.email (normName customer)
  let p2 := resolveWallet p1.2 p1.1.id
  let st3 := insertTxn p2.2 p2.1.id "earn" "order" (jsStringOfOpt order.id) points
    "Points from order"
  updateWallet st3 p2.1.id (p2.1.points + points) (p2.1.lifetime_points + points) now

/-- The `POST /shopify/orders-paid` handler (lines 167-247). Returns the
HTTP status and body together with the store after the request. A thrown
error (missing secret, malformed JSON) reaches the catch and yields
`500 "Server error"` with the store untouched. `now` is the clock read
by `new Date().toISOString()`. -/
def ordersPaid (hmac : String → String → String) (now : Nat) (req : Request) (st : Store) :
    (Nat × String) × Store :=
  match verifyHmac hmac req with
  | Except.error _ => ((500, "Server error"), st)
  | Except.ok false => ((401, "Invalid HMAC"), st)
  | Except.ok true =>
    match req.payload with
    | none => ((500, "Server error"), st)
    | some order =>
      match order.customer with
      | none => ((200, "No customer"), st)
      | some customer => ((200, "OK"), applyOrder st order customer now)

/-! ### The balance query -/

/-- The JSON bodies the `GET /wallet/by-email` route can send. -/
inductive QueryResult where
  | err (status : Nat) (message : String)
  | ok (email : Option String) (name : Option String) (hasWallet : Bool)
      (points lifetime_points : Int)
deriving DecidableEq, Repr

/-- `.maybeSingle()`: no row is `none`, one row is that row, several rows
is an error. -/
def maybeSingle {α : Type} : List α → Except Unit (Option α)
  | [] => Except.ok none
  | [a] => Except.ok (some a)
  | _ => Except.error ()

/-- The `GET /wallet/by-email` handler (lines 257-316). `emailQ` is the
`email` query parameter (`none` when absent). The route only reads; the
store is returned unchanged on every path. -/
def walletByEmail (emailQ : Option String) (st : Store) : QueryResult × Store :=
  match emailQ with
  | none => (QueryResult.err 400 "email is required", st)
  | some email =>
    if email = "" then (QueryResult.err 400 "email is required", st)
    else
      match maybeSingle (st.users.filter (fun u => u.email == some email)) with
      | Except.error _ => (QueryResult.err 500 "User lookup failed", st)
      | Except.ok none => (QueryResult.ok (some email) none false 0 0, st)
      | Except.ok (some user) =>
        match maybeSingle (st.wallets.filter (fun w => w.user_id == user.id)) with
        | Except.error _ => (QueryResult.err 500 "Wallet lookup failed", st)
        | Except.ok none => (QueryResult.ok user.email (some user.name) false 0 0, st)
        | Except.ok (some w) =>
          (QueryResult.ok user.email (some user.name) true w.points w.lifetime_points, st)

/-! ### Fixtures and derived notions used in the statements -/

/-- The wallet resolved (found or freshly created) for the upserted user
of a customer, with its pre-update totals — the `wallet` local of the
handler at step 5. -/
def resolvedWallet (st : Store) (customer : Customer) : Wallet :=
  (resolveWallet
    ((upsertUser st (jsStringOfOpt customer.id) customer.email (normName customer)).2)
    ((upsertUser st (jsStringOfOpt customer.id) customer.email (normName customer)).1).id).1

/-- An HMAC model under which the fixture requests authenticate. -/
def hmacSig : String → String → String := fun _ _ => "sig"

/-- Fixture customer `C1`. -/
def custC1 : Customer :=
  { id := some "C1", email := some "c1@shop.example", first_name := some "Ada",
    last_name := none }

/-- Fixture order `O1`: total `"10.00"` by customer `C1`. -/
def ordO1 : OrderPayload :=
  { id := some "O1", total_price := some "10.00", customer := some custC1 }

/-- A concrete signed delivery of order `O1`. -/
def reqOrder1 : Request :=
  { hmacHeader := some "sig", secret := some "k", rawBody := "b1", payload := some ordO1 }

/-- Fixture order `O2`: total `"5.00"`, same customer `C1`. -/
def ordO2 : OrderPayload :=
  { id := some "O2", total_price := some "5.00", customer := some custC1 }

/-- A concrete signed delivery of order `O2`. -/
def reqOrder2 : Request :=
  { hmacHeader := some "sig", secret := some "k", rawBody := "b2", payload := some ordO2 }

/-- A signed order with a negative total price. -/
def reqNegOrder : Request :=
  { hmacHeader := some "sig", secret := some "k", rawBody := "bn",
    payload := some
      { id := some "O8", total_price := some "-1.00",
        customer := some
          { id := some "C9", email := none, first_name := none, last_name := none } } }

/-- Fixture customer with no id field. -/
def custNoId : Customer :=
  { id := none, email := some "ghost@shop.example", first_name := none, last_name := none }

/-- Fixture order by the id-less customer. -/
def ordNoId : OrderPayload :=
  { id := some "O5", total_price := some "2.00", customer := some custNoId }

/-- A concrete signed delivery of the id-less customer's order. -/
def reqNoIdOrder : Request :=
  { hmacHeader := some "sig", secret := some "k", rawBody := "b5", payload := some ordNoId }

/-- A store holding customer `C1` with one wallet at 5/8 points. -/
def stOne : Store :=
  { users := [{ id := 0, shopify_customer_id := "C1", email := some "c1@shop.example",
                name := "Ada" }],
    wallets := [{ id := 1, user_id := 0, points := 5, lifetime_points := 8, updated_at := 2 }],
    txns := [], nextId := 2 }

/-! ### Basic facts about the store operations -/

/-- `calcPoints` is the rational floor of `amount * 3`. -/
theorem calcPoints_floor (totalPrice : Option String) :
    calcPoints totalPrice = Int.floor (jsAmount totalPrice * 3) := by
  cases totalPrice with
  | none => simp [calcPoints, jsAmount]
  | some s =>
    cases h : jsParseFloat s with
    | none => simp [calcPoints, jsAmount, h]
    | some p =>
      simp only [calcPoints, jsAmount, h, jsValue, div_mul_eq_mul_div]
      have h3 : ((p.1 : Rat) * 3) = ((p.1 * 3 : Int) : Rat) := by push_cast; ring
      rw [h3, Rat.floor_intCast_div_natCast]

theorem upsertUser_wallets (st : Store) (cid : String) (email : Option String) (name : String) :
    ((upsertUser st cid email name).2).wallets = st.wallets := by
  unfold upsertUser
  split <;> rfl

theorem upsertUser_nextId (st : Store) (cid : String) (email : Option String) (name : String) :
    st.nextId ≤ ((upsertUser st cid email name).2).nextId := by
  unfold upsertUser
  split <;> simp

theorem upsertUser_cid (st : Store) (cid : String) (email : Option String) (name : String) :
    ((upsertUser st cid email name).1).shopify_customer_id = cid := by
  unfold upsertUser
  cases hfind : st.users.find? (fun u => u.shopify_customer_id == cid) with
  | none => rfl
  | some u =>
    have h := List.find?_some hfind
    simp only [beq_iff_eq] at h
    simpa using h

theorem insertTxn_wallets (st : Store) (wid : Nat) (ty src oid : String) (pts : Int)
    (nt : String) : (insertTxn st wid ty src oid pts nt).wallets = st.wallets := rfl

theorem updateWallet_wallets (st : Store) (wid : Nat) (pts lt : Int) (t : Nat) :
    (updateWallet st wid pts lt t).wallets =
      st.wallets.map (fun w =>
        if w.id == wid then { w with points := pts, lifetime_points := lt, updated_at := t }
        else w) := rfl

/-- In a wallet list with pairwise distinct ids, find-by-id returns the
member itself. -/
theorem find?_id_of_mem (L : List Wallet) (w : Wallet)
    (hd : (L.map Wallet.id).Nodup) (hw : w ∈ L) :
    L.find? (fun x => x.id == w.id) = some w := by
  have hsome : (L.find? (fun x => x.id == w.id)).isSome := by
    rw [List.find?_isSome]
    exact ⟨w, hw, by simp⟩
  obtain ⟨x, hx⟩ := Option.isSome_iff_exists.mp hsome
  have hxm := List.mem_of_find?_eq_some hx
  have hxp := List.find?_some hx
  simp only [beq_iff_eq] at hxp
  rw [hx, List.inj_on_of_nodup_map hd hxm hw hxp]

/-- When a resolved wallet exists the resolution is a pure read. -/
theorem resolveWallet_found (st : Store) (uid : Nat) (w : Wallet)
    (h : findWallet st uid = some w) : resolveWallet st uid = (w, st) := by
  simp [resolveWallet, h]

/-- When no wallet exists the resolution inserts the zero-initialized
fresh row. -/
theorem resolveWallet_new (st : Store) (uid : Nat) (h : findWallet st uid = none) :
    resolveWallet st uid =
      ({ id := st.nextId, user_id := uid, points := 0, lifetime_points := 0, updated_at := 0 },
       { st with
          wallets := st.wallets ++
            [{ id := st.nextId, user_id := uid, points := 0, lifetime_points := 0,
               updated_at := 0 }]
          nextId := st.nextId + 1 }) := by
  simp [resolveWallet, h, insertWallet]

/-- Unfolding of the webhook handler on the success path: authenticated,
parseable, with a customer. -/
theorem ordersPaid_success (hmac : String → String → String) (now : Nat) (req : Request)
    (st : Store) (order : OrderPayload) (customer : Customer)
    (hauth : verifyHmac hmac req = Except.ok true)
    (hord : req.payload = some order)
    (hcust : order.customer = some customer) :
    ordersPaid hmac now req st = ((200, "OK"), applyOrder st order customer now) := by
  simp [ordersPaid, hauth, hord, hcust]

theorem upsertUser_txns (st : Store) (cid : String) (email : Option String) (name : String) :
    ((upsertUser st cid email name).2).txns = st.txns := by
  unfold upsertUser
  split <;> rfl

theorem updateWallet_txns (st : Store) (wid : Nat) (pts lt : Int) (t : Nat) :
    (updateWallet st wid pts lt t).txns = st.txns := rfl

theorem insertTxn_txns (st : Store) (wid : Nat) (ty src oid : String) (pts : Int)
    (nt : String) :
    (insertTxn st wid ty src oid pts nt).txns =
      st.txns ++
        [{ id := st.nextId, wallet_id := wid, type := ty, source := src,
           shopify_order_id := oid, points_change := pts, note := nt }] := rfl

theorem resolveWallet_txns (st : Store) (uid : Nat) :
    ((resolveWallet st uid).2).txns = st.txns := by
  unfold resolveWallet
  split <;> rfl

/-- The transaction append of `applyOrder`: exactly one earn row is
added, bearing the external order id, the computed award, and the
resolved wallet's id. -/
theorem applyOrder_txns (st : Store) (order : OrderPayload) (customer : Customer)
    (now : Nat) :
    ∃ tid : Nat,
      (applyOrder st order customer now).txns =
        st.txns ++
          [{ id := tid, wallet_id := (resolvedWallet st customer).id, type := "earn",
             source := "order", shopify_order_id := jsStringOfOpt order.id,
             points_change := calcPoints order.total_price,
             note := "Points from order" }] := by
  refine ⟨((resolveWallet
      ((upsertUser st (jsStringOfOpt customer.id) customer.email (normName customer)).2)
      ((upsertUser st (jsStringOfOpt customer.id) customer.email
        (normName customer)).1).id).2).nextId, ?_⟩
  simp only [applyOrder, updateWallet_txns, insertTxn_txns, resolveWallet_txns,
    upsertUser_txns, resolvedWallet]

/-- Wallet table after `applyOrder` when the user already has a wallet
`w`: only `w`'s row changes, to the incremented totals and the fresh
timestamp. -/
theorem applyOrder_wallets_found (st : Store) (order : OrderPayload) (customer : Customer)
    (now : Nat) (w : Wallet)
    (hfw : findWallet
        ((upsertUser st (jsStringOfOpt customer.id) customer.email (normName customer)).2)
        ((upsertUser st (jsStringOfOpt customer.id) customer.email (normName customer)).1).id =
      some w) :
    (applyOrder st order customer now).wallets =
      st.wallets.map (fun x =>
        if x.id == w.id then
          { x with
            points := w.points + calcPoints order.total_price
            lifetime_points := w.lifetime_points + calcPoints order.total_price
            updated_at := now }
        else x) := by
  simp only [applyOrder, resolveWallet_found _ _ _ hfw, insertTxn_wallets,
    updateWallet_wallets, upsertUser_wallets]

/-- Wallet table after `applyOrder` when the user has no wallet yet: a
zero-initialized row is appended with the pending fresh id, then that
row is updated to the award. -/
theorem applyOrder_wallets_new (st : Store) (order : OrderPayload) (customer : Customer)
    (now : Nat)
    (hfw : findWallet
        ((upsertUser st (jsStringOfOpt customer.id) customer.email (normName customer)).2)
        ((upsertUser st (jsStringOfOpt customer.id) customer.email (normName customer)).1).id =
      none) :
    (applyOrder st order customer now).wallets =
      (st.wallets ++
        [({ id := ((upsertUser st (jsStringOfOpt customer.id) customer.email
                (normName customer)).2).nextId
            user_id := ((upsertUser st (jsStringOfOpt customer.id) customer.email
                (normName customer)).1).id
            points := 0, lifetime_points := 0, updated_at := 0 } : Wallet)]).map
        (fun x : Wallet =>
        if x.id == ((upsertUser st (jsStringOfOpt customer.id) customer.email
            (normName customer)).2).nextId then
          { x with
            points := 0 + calcPoints order.total_price
            lifetime_points := 0 + calcPoints order.total_price
            updated_at := now }
        else x) := by
  simp only [applyOrder, resolveWallet_new _ _ hfw, insertTxn_wallets,
    updateWallet_wallets, upsertUser_wallets]

/-! ### C2 — the points calculator -/

/-- C2 counterexample: the claim states that `calcPoints` of a
negative amount is 0; on the code, `calcPoints "-5"` is `-15`, not 0
(`parseFloat("-5") = -5` is truthy, so `|| 0` does not replace it, and
`Math.floor(-5 * 3) = -15`). -/
theorem c2_counterexample : calcPoints (some "-5") = -15 ∧ (-15 : Int) ≠ 0 :=
  ⟨by decide, by decide⟩

/-- C2 amended: `calcPoints` is a pure function with
`calcPoints a = ⌊a * 3⌋` for every parseable amount `a` (also negative
ones, where the result is the negative floor rather than the claimed 0),
`calcPoints "0" = 0`, and `calcPoints` of an unparseable or absent
amount is 0. -/
theorem c2_calcPoints_spec (s : String) :
    (∀ p : Int × Nat, jsParseFloat s = some p →
        calcPoints (some s) = Int.floor (jsValue p * 3)) ∧
    (jsParseFloat s = none → calcPoints (some s) = 0) ∧
    calcPoints (some "0") = 0 ∧ calcPoints none = 0 := by
  refine ⟨?_, ?_, by decide, by decide⟩
  · intro p hp
    rw [calcPoints_floor]
    simp [jsAmount, hp]
  · intro hp
    simp [calcPoints, hp]

/-- C2 witness: `"10.00"` parses to `1000/100` and earns
`⌊10 * 3⌋ = 30` points. -/
theorem c2_witness : calcPoints (some "10.00") = Int.floor (jsValue (1000, 100) * 3) :=
  (c2_calcPoints_spec "10.00").1 (1000, 100) (by decide)

/-! ### C4 — unauthenticated requests -/

/-- C4 counterexample: the claim states that a request with a
missing shared secret gets a 401; in the code
`crypto.createHmac('sha256', undefined)` throws, the catch answers
`500 "Server error"`, and 500 ≠ 401. (The store is still untouched.) -/
theorem c4_counterexample :
    ordersPaid (fun _ _ => "sig") 0
        { hmacHeader := some "sig", secret := none, rawBody := "b", payload := none }
        emptyStore =
      ((500, "Server error"), emptyStore) ∧ (500 : Nat) ≠ 401 :=
  ⟨by decide, by decide⟩

/-- C4 amended: when the signature comparison fails — in
particular whenever the signature header is missing but a secret is
configured — the handler answers `401 "Invalid HMAC"` and the store is
untouched; when the shared secret is missing the handler throws and
answers `500 "Server error"`, also with the store untouched. -/
theorem c4_unauthenticated (hmac : String → String → String) (now : Nat) (req : Request)
    (st : Store) :
    (verifyHmac hmac req = Except.ok false →
      ordersPaid hmac now req st = ((401, "Invalid HMAC"), st)) ∧
    (req.hmacHeader = none → req.secret ≠ none →
      ordersPaid hmac now req st = ((401, "Invalid HMAC"), st)) ∧
    (req.secret = none → ordersPaid hmac now req st = ((500, "Server error"), st)) := by
  refine ⟨?_, ?_, ?_⟩
  · intro h
    simp [ordersPaid, h]
  · intro hh hs
    cases hsec : req.secret with
    | none => exact absurd hsec hs
    | some s => simp [ordersPaid, verifyHmac, hsec, hh]
  · intro h
    simp [ordersPaid, verifyHmac, h]

/-- C4 witness: a concrete tampered-signature request is refused
with 401 and leaves the empty store empty. -/
theorem c4_witness :
    ordersPaid (fun _ _ => "good") 0
        { hmacHeader := some "tampered", secret := some "k", rawBody := "b", payload := none }
        emptyStore =
      ((401, "Invalid HMAC"), emptyStore) :=
  (c4_unauthenticated (fun _ _ => "good") 0
      { hmacHeader := some "tampered", secret := some "k", rawBody := "b", payload := none }
      emptyStore).1 (by rfl)

/-! ### C8 — payload without a customer -/

/-- C8: an authenticated payload without a customer is answered
`200 "No customer"` and the store — accounts, wallets and transactions
alike — is exactly what it was. -/
theorem c8_no_customer (hmac : String → String → String) (now : Nat) (req : Request)
    (st : Store) (order : OrderPayload)
    (hauth : verifyHmac hmac req = Except.ok true)
    (hord : req.payload = some order)
    (hcust : order.customer = none) :
    ordersPaid hmac now req st = ((200, "No customer"), st) := by
  simp [ordersPaid, hauth, hord, hcust]

/-- C8 witness: a concrete authenticated customer-less payload on
the empty store. -/
theorem c8_witness :
    ordersPaid (fun _ _ => "sig") 3
        { hmacHeader := some "sig", secret := some "k", rawBody := "b",
          payload := some { id := some "O9", total_price := some "7.00", customer := none } }
        emptyStore =
      ((200, "No customer"), emptyStore) :=
  c8_no_customer (fun _ _ => "sig") 3
    { hmacHeader := some "sig", secret := some "k", rawBody := "b",
      payload := some { id := some "O9", total_price := some "7.00", customer := none } }
    emptyStore
    { id := some "O9", total_price := some "7.00", customer := none }
    (by rfl) (by rfl) (by rfl)

/-! ### C1 — redelivery of the same order id -/

/-- C1: redelivering the same order id is *not* idempotent in the
code — there is no uniqueness check on `shopify_order_id` and no lookup
before the award. Processing `reqOrder1` twice awards 30 points twice:
the balance ends at 60/60 instead of staying 30/30, and a second
transaction row with the same external order id is appended. -/
theorem c1_double_award :
    ((ordersPaid hmacSig 6 reqOrder1 (ordersPaid hmacSig 5 reqOrder1 emptyStore).2).2).wallets =
        [{ id := 1, user_id := 0, points := 60, lifetime_points := 60, updated_at := 6 }] ∧
      ((ordersPaid hmacSig 5 reqOrder1 emptyStore).2).wallets =
        [{ id := 1, user_id := 0, points := 30, lifetime_points := 30, updated_at := 5 }] ∧
      (((ordersPaid hmacSig 6 reqOrder1 (ordersPaid hmacSig 5 reqOrder1 emptyStore).2).2).txns.map
          Txn.shopify_order_id) = ["O1", "O1"] :=
  ⟨by decide, by decide, by decide⟩

/-! ### C3 — balance invariants -/

/-- C3 counterexample: the claim says every operation keeps wallet
current totals non-negative; an authenticated order with total price
`"-1.00"` is awarded `⌊-1 * 3⌋ = -3` points, and the completed webhook
application leaves the wallet at current total -3 < 0 (its lifetime
total likewise fell from its initial 0 to -3). -/
theorem c3_counterexample :
    ((ordersPaid hmacSig 4 reqNegOrder emptyStore).2).wallets =
        [{ id := 1, user_id := 0, points := -3, lifetime_points := -3, updated_at := 4 }] ∧
      ¬ (0 : Int) ≤ -3 :=
  ⟨by decide, by decide⟩

/-- C3 amended: provided the applied event's computed point delta
is non-negative (as it is for every non-negative or unparseable total
price — only a parseable negative total violates it), a webhook
application preserves the balance invariants: all wallet current totals
stay non-negative, and each stored wallet's lifetime total does not
decrease. The store is assumed well formed: wallet ids are pairwise
distinct and below the fresh-id counter. -/
theorem c3_invariants (hmac : String → String → String) (now : Nat) (req : Request)
    (st : Store)
    (hdelta : ∀ o : OrderPayload, req.payload = some o → 0 ≤ calcPoints o.total_price)
    (hnn : ∀ w ∈ st.wallets, 0 ≤ w.points)
    (hids : (st.wallets.map Wallet.id).Nodup)
    (hfresh : ∀ w ∈ st.wallets, w.id < st.nextId) :
    (∀ w ∈ ((ordersPaid hmac now req st).2).wallets, 0 ≤ w.points) ∧
      (∀ (i : Nat) (w w2 : Wallet), st.wallets[i]? = some w →
        ((ordersPaid hmac now req st).2).wallets[i]? = some w2 →
        w.lifetime_points ≤ w2.lifetime_points) := by
  have hbase : ∀ res : Store, res = st →
      ((∀ w ∈ res.wallets, 0 ≤ w.points) ∧
        (∀ (i : Nat) (w w2 : Wallet), st.wallets[i]? = some w →
          res.wallets[i]? = some w2 → w.lifetime_points ≤ w2.lifetime_points)) := by
    rintro res rfl
    refine ⟨hnn, ?_⟩
    intro i w w2 h1 h2
    rw [h1] at h2
    injection h2 with h
    exact h ▸ le_refl _
  cases hv : verifyHmac hmac req with
  | error e => exact hbase _ (by simp [ordersPaid, hv])
  | ok b =>
    cases b with
    | false => exact hbase _ (by simp [ordersPaid, hv])
    | true =>
      cases hord : req.payload with
      | none => exact hbase _ (by simp [ordersPaid, hv, hord])
      | some order =>
        cases hcust : order.customer with
        | none => exact hbase _ (by simp [ordersPaid, hv, hord, hcust])
        | some customer =>
          have hres := ordersPaid_success hmac now req st order customer hv hord hcust
          have hpts : 0 ≤ calcPoints order.total_price := hdelta order hord
          simp only [hres]
          cases hfw : findWallet
              ((upsertUser st (jsStringOfOpt customer.id) customer.email
                (normName customer)).2)
              ((upsertUser st (jsStringOfOpt customer.id) customer.email
                (normName customer)).1).id with
          | some w =>
            have hwmem : w ∈ st.wallets := by
              have h := List.mem_of_find?_eq_some hfw
              rwa [upsertUser_wallets] at h
            have hw0 : 0 ≤ w.points := hnn w hwmem
            rw [applyOrder_wallets_found st order customer now w hfw]
            constructor
            · intro x hx
              rw [List.mem_map] at hx
              obtain ⟨y, hy, rfl⟩ := hx
              by_cases hid : y.id = w.id
              · simp only [hid, beq_self_eq_true, if_true]
                exact add_nonneg hw0 hpts
              · simp only [beq_iff_eq, hid, if_false]
                exact hnn y hy
            · intro i wo w2 h1 h2
              rw [List.getElem?_map, h1] at h2
              simp only [Option.map_some'] at h2
              injection h2 with h2
              subst h2
              by_cases hid : wo.id = w.id
              · have hwo : wo ∈ st.wallets := by
                  obtain ⟨hlt, hget⟩ := List.getElem?_eq_some_iff.mp h1
                  exact hget ▸ List.getElem_mem hlt
                have hwe : wo = w := List.inj_on_of_nodup_map hids hwo hwmem hid
                simp only [hid, beq_self_eq_true, if_true, hwe]
                exact le_add_of_nonneg_right hpts
              · simp only [beq_iff_eq, hid, if_false]
                exact le_refl _
          | none =>
            rw [applyOrder_wallets_new st order customer now hfw]
            have hnid : st.nextId ≤
                ((upsertUser st (jsStringOfOpt customer.id) customer.email
                  (normName customer)).2).nextId :=
              upsertUser_nextId st (jsStringOfOpt customer.id) customer.email
                (normName customer)
            constructor
            · intro x hx
              rw [List.mem_map] at hx
              obtain ⟨y, hy, rfl⟩ := hx
              by_cases hid : y.id =
                  ((upsertUser st (jsStringOfOpt customer.id) customer.email
                    (normName customer)).2).nextId
              · simp only [hid, beq_self_eq_true, if_true]
                exact add_nonneg (le_refl 0) hpts
              · simp only [beq_iff_eq, hid, if_false]
                rcases List.mem_append.mp hy with hy1 | hy1
                · exact hnn y hy1
                · simp at hy1
                  rw [hy1]
            · intro i wo w2 h1 h2
              have hlt : i < st.wallets.length := (List.getElem?_eq_some_iff.mp h1).1
              rw [List.getElem?_map, List.getElem?_append_left hlt, h1] at h2
              simp only [Option.map_some'] at h2
              injection h2 with h2
              subst h2
              have hwo : wo ∈ st.wallets := by
                obtain ⟨hlt2, hget⟩ := List.getElem?_eq_some_iff.mp h1
                exact hget ▸ List.getElem_mem hlt2
              have hno : wo.id ≠
                  ((upsertUser st (jsStringOfOpt customer.id) customer.email
                    (normName customer)).2).nextId := by
                have := hfresh wo hwo
                omega
              simp only [beq_iff_eq, hno, if_false]
              exact le_refl _

/-- C3 witness: on the store holding customer `C1` with one 5/8 wallet,
applying order `O1` keeps the lifetime total non-decreasing (8 ≤ 38). -/
theorem c3_witness :
    ({ id := 1, user_id := 0, points := 5, lifetime_points := 8,
        updated_at := 2 } : Wallet).lifetime_points ≤
      ({ id := 1, user_id := 0, points := 35, lifetime_points := 38,
          updated_at := 7 } : Wallet).lifetime_points :=
  (c3_invariants hmacSig 7 reqOrder1 stOne
      (by
        intro o ho
        have h : ordO1 = o := by
          have h2 : (some ordO1 : Option OrderPayload) = some o := ho
          injection h2
        rw [← h]
        decide)
      (by decide) (by decide) (by decide)).2 0
    { id := 1, user_id := 0, points := 5, lifetime_points := 8, updated_at := 2 }
    { id := 1, user_id := 0, points := 35, lifetime_points := 38, updated_at := 7 }
    (by decide) (by decide)

/-! ### C5 — the balance update -/

/-- Finding the updated row: in a wallet list with distinct ids
containing `w`, the balance update rewrites exactly `w`'s row. -/
theorem find?_update_self (L : List Wallet) (w : Wallet) (pts lt : Int) (t : Nat)
    (hd : (L.map Wallet.id).Nodup) (hw : w ∈ L) :
    (L.map (fun x =>
        if x.id == w.id then
          { x with points := pts, lifetime_points := lt, updated_at := t }
        else x)).find? (fun x => x.id == w.id) =
      some { w with points := pts, lifetime_points := lt, updated_at := t } := by
  rw [List.find?_map]
  have hcomp : ((fun x : Wallet => x.id == w.id) ∘
      (fun x : Wallet =>
        if x.id == w.id then
          { x with points := pts, lifetime_points := lt, updated_at := t }
        else x)) =
      fun x : Wallet => x.id == w.id := by
    funext x
    by_cases h : x.id = w.id <;> simp [Function.comp, h]
  rw [hcomp, find?_id_of_mem L w hd hw]
  simp

/-- Finding the freshly created row: when a zero-initialized wallet with
an unused id is appended and then updated, find-by-id returns the
updated fresh row. -/
theorem find?_update_fresh (L : List Wallet) (nid uid : Nat) (pts lt : Int) (t : Nat)
    (hd : (L.map Wallet.id).Nodup) (hnotin : ∀ w ∈ L, w.id ≠ nid) :
    ((L ++ [({ id := nid, user_id := uid, points := 0, lifetime_points := 0,
               updated_at := 0 } : Wallet)]).map (fun x : Wallet =>
        if x.id == nid then
          { x with points := pts, lifetime_points := lt, updated_at := t }
        else x)).find? (fun x => x.id == nid) =
      some { id := nid, user_id := uid, points := pts, lifetime_points := lt,
             updated_at := t } := by
  have hd2 : (((L ++ [({ id := nid, user_id := uid, points := 0, lifetime_points := 0,
                         updated_at := 0 } : Wallet)]).map Wallet.id)).Nodup := by
    rw [List.map_append]
    refine List.Nodup.append hd (List.nodup_singleton _) ?_
    intro a ha hb
    simp only [List.map_cons, List.map_nil, List.mem_singleton] at hb
    rw [List.mem_map] at ha
    obtain ⟨y, hy, rfl⟩ := ha
    exact hnotin y hy hb
  exact find?_update_self _ _ pts lt t hd2
    (List.mem_append_right _ (List.mem_singleton_self _))

/-- C5: on every successful webhook application with computed delta d,
the stored row of the resolved wallet ends at previous current + d,
previous lifetime + d, with the refreshed timestamp. The store is
assumed well formed (pairwise distinct wallet ids, all below the
fresh-id counter). -/
theorem c5_balance_update (hmac : String → String → String) (now : Nat) (req : Request)
    (st : Store) (order : OrderPayload) (customer : Customer)
    (hauth : verifyHmac hmac req = Except.ok true)
    (hord : req.payload = some order)
    (hcust : order.customer = some customer)
    (hids : (st.wallets.map Wallet.id).Nodup)
    (hfresh : ∀ w ∈ st.wallets, w.id < st.nextId) :
    ((ordersPaid hmac now req st).2).wallets.find?
        (fun x => x.id == (resolvedWallet st customer).id) =
      some
        { resolvedWallet st customer with
          points := (resolvedWallet st customer).points + calcPoints order.total_price
          lifetime_points :=
            (resolvedWallet st customer).lifetime_points + calcPoints order.total_price
          updated_at := now } := by
  simp only [ordersPaid_success hmac now req st order customer hauth hord hcust]
  cases hfw : findWallet
      ((upsertUser st (jsStringOfOpt customer.id) customer.email (normName customer)).2)
      ((upsertUser st (jsStringOfOpt customer.id) customer.email
        (normName customer)).1).id with
  | some w =>
    have hrw : resolvedWallet st customer = w := by
      simp [resolvedWallet, resolveWallet_found _ _ _ hfw]
    have hwmem : w ∈ st.wallets := by
      have h := List.mem_of_find?_eq_some hfw
      rwa [upsertUser_wallets] at h
    rw [applyOrder_wallets_found st order customer now w hfw, hrw]
    exact find?_update_self st.wallets w _ _ now hids hwmem
  | none =>
    have hrw : resolvedWallet st customer =
        { id := ((upsertUser st (jsStringOfOpt customer.id) customer.email
              (normName customer)).2).nextId
          user_id := ((upsertUser st (jsStringOfOpt customer.id) customer.email
              (normName customer)).1).id
          points := 0, lifetime_points := 0, updated_at := 0 } := by
      simp [resolvedWallet, resolveWallet_new _ _ hfw]
    have hnid : st.nextId ≤
        ((upsertUser st (jsStringOfOpt customer.id) customer.email
          (normName customer)).2).nextId :=
      upsertUser_nextId st (jsStringOfOpt customer.id) customer.email (normName customer)
    rw [applyOrder_wallets_new st order customer now hfw, hrw]
    refine find?_update_fresh st.wallets _ _ _ _ now hids ?_
    intro y hy
    have h1 := hfresh y hy
    show y.id ≠ ((upsertUser st (jsStringOfOpt customer.id) customer.email
      (normName customer)).2).nextId
    omega

/-- C5 witness: applying order `O1` (30 points) to the 5/8 wallet of
customer `C1` stores 35/38 with the new timestamp. -/
theorem c5_witness :
    ((ordersPaid hmacSig 7 reqOrder1 stOne).2).wallets.find?
        (fun x => x.id == (resolvedWallet stOne custC1).id) =
      some
        { resolvedWallet stOne custC1 with
          points := (resolvedWallet stOne custC1).points + calcPoints ordO1.total_price
          lifetime_points :=
            (resolvedWallet stOne custC1).lifetime_points + calcPoints ordO1.total_price
          updated_at := 7 } :=
  c5_balance_update hmacSig 7 reqOrder1 stOne ordO1 custC1 rfl rfl rfl
    (by decide) (by decide)

/-! ### C6 — two distinct orders for one customer -/

/-- C6: two authenticated purchase events with the same external
customer id and distinct order ids, applied to the empty store, sum both
awards into the final balance, and the lifetime total equals the current
total (no spends exist). -/
theorem c6_two_orders (hmac : String → String → String) (t1 t2 : Nat)
    (req1 req2 : Request) (o1 o2 : OrderPayload) (ca cb : Customer)
    (ha1 : verifyHmac hmac req1 = Except.ok true)
    (ha2 : verifyHmac hmac req2 = Except.ok true)
    (hp1 : req1.payload = some o1) (hp2 : req2.payload = some o2)
    (hc1 : o1.customer = some ca) (hc2 : o2.customer = some cb)
    (hcid : jsStringOfOpt cb.id = jsStringOfOpt ca.id)
    (hoid : jsStringOfOpt o1.id ≠ jsStringOfOpt o2.id) :
    ((ordersPaid hmac t1 req1 emptyStore).2).wallets =
      [{ id := 1, user_id := 0, points := calcPoints o1.total_price,
         lifetime_points := calcPoints o1.total_price, updated_at := t1 }] ∧
    ((ordersPaid hmac t2 req2 (ordersPaid hmac t1 req1 emptyStore).2).2).wallets =
      [{ id := 1, user_id := 0,
         points := calcPoints o1.total_price + calcPoints o2.total_price,
         lifetime_points := calcPoints o1.total_price + calcPoints o2.total_price,
         updated_at := t2 }] := by
  have e1 := ordersPaid_success hmac t1 req1 emptyStore o1 ca ha1 hp1 hc1
  have e2 := ordersPaid_success hmac t2 req2 (ordersPaid hmac t1 req1 emptyStore).2 o2 cb
    ha2 hp2 hc2
  constructor
  · rw [e1]
    simp [applyOrder, upsertUser, emptyStore, findWallet, resolveWallet, insertWallet,
      insertTxn, updateWallet]
  · rw [e2, e1]
    simp [applyOrder, upsertUser, emptyStore, findWallet, resolveWallet, insertWallet,
      insertTxn, updateWallet, hcid]

/-- C6 witness: the concrete scenario — new customer `C1`, order `O1`
for `"10.00"` gives 30/30, then order `O2` for `"5.00"` gives 45/45. -/
theorem c6_witness :
    ((ordersPaid hmacSig 1 reqOrder1 emptyStore).2).wallets =
      [{ id := 1, user_id := 0, points := 30, lifetime_points := 30, updated_at := 1 }] ∧
    ((ordersPaid hmacSig 2 reqOrder2 (ordersPaid hmacSig 1 reqOrder1 emptyStore).2).2).wallets =
      [{ id := 1, user_id := 0, points := 45, lifetime_points := 45, updated_at := 2 }] := by
  have h := c6_two_orders hmacSig 1 2 reqOrder1 reqOrder2 ordO1 ordO2 custC1 custC1
    rfl rfl rfl rfl rfl rfl rfl (by decide)
  exact ⟨by rw [h.1]; decide, by rw [h.2]; decide⟩

/-! ### C7 — lazy wallet creation -/

/-- C7: when the resolved account has no wallet, the resolution step
creates exactly one wallet — current and lifetime totals zero, owned by
the resolved user — before the transaction append and balance update
run; the completed application leaves the wallet table exactly one row
longer. -/
theorem c7_wallet_created (hmac : String → String → String) (now : Nat) (req : Request)
    (st : Store) (order : OrderPayload) (customer : Customer)
    (hauth : verifyHmac hmac req = Except.ok true)
    (hord : req.payload = some order)
    (hcust : order.customer = some customer)
    (hnw : findWallet
        ((upsertUser st (jsStringOfOpt customer.id) customer.email (normName customer)).2)
        ((upsertUser st (jsStringOfOpt customer.id) customer.email
          (normName customer)).1).id = none) :
    (resolvedWallet st customer).points = 0 ∧
    (resolvedWallet st customer).lifetime_points = 0 ∧
    (resolvedWallet st customer).user_id =
      ((upsertUser st (jsStringOfOpt customer.id) customer.email
        (normName customer)).1).id ∧
    ((resolveWallet
        ((upsertUser st (jsStringOfOpt customer.id) customer.email (normName customer)).2)
        ((upsertUser st (jsStringOfOpt customer.id) customer.email
          (normName customer)).1).id).2).wallets =
      st.wallets ++ [resolvedWallet st customer] ∧
    ((ordersPaid hmac now req st).2).wallets.length = st.wallets.length + 1 := by
  have hres := resolveWallet_new _ _ hnw
  refine ⟨?_, ?_, ?_, ?_, ?_⟩
  · simp [resolvedWallet, hres]
  · simp [resolvedWallet, hres]
  · simp [resolvedWallet, hres]
  · simp [resolvedWallet, hres, upsertUser_wallets]
  · simp only [ordersPaid_success hmac now req st order customer hauth hord hcust]
    rw [applyOrder_wallets_new st order customer now hnw]
    simp

/-- C7 witness: on the empty store, order `O1` creates exactly one
zero-initialized wallet for the new account. -/
theorem c7_witness :
    (resolvedWallet emptyStore custC1).points = 0 ∧
    (resolvedWallet emptyStore custC1).lifetime_points = 0 ∧
    (resolvedWallet emptyStore custC1).user_id =
      ((upsertUser emptyStore (jsStringOfOpt custC1.id) custC1.email
        (normName custC1)).1).id ∧
    ((resolveWallet
        ((upsertUser emptyStore (jsStringOfOpt custC1.id) custC1.email
          (normName custC1)).2)
        ((upsertUser emptyStore (jsStringOfOpt custC1.id) custC1.email
          (normName custC1)).1).id).2).wallets =
      emptyStore.wallets ++ [resolvedWallet emptyStore custC1] ∧
    ((ordersPaid hmacSig 1 reqOrder1 emptyStore).2).wallets.length =
      emptyStore.wallets.length + 1 :=
  c7_wallet_created hmacSig 1 reqOrder1 emptyStore ordO1 custC1 rfl rfl rfl (by decide)

/-! ### C9 — the balance query -/

/-- C9: the balance query by (non-empty) email: with no matching
account it answers success with `hasWallet := false`, zero totals and a
null name; with an account but no wallet it likewise answers
`hasWallet := false` and zero totals; with a wallet it carries the
wallet's current and lifetime totals; and on every path the store is
returned unchanged (the route performs no writes). -/
theorem c9_wallet_by_email (e : String) (st : Store) (he : e ≠ "") :
    ((st.users.filter (fun u => u.email == some e)) = [] →
      walletByEmail (some e) st = (QueryResult.ok (some e) none false 0 0, st)) ∧
    (∀ u : User, (st.users.filter (fun u2 => u2.email == some e)) = [u] →
      ((st.wallets.filter (fun w => w.user_id == u.id)) = [] →
        walletByEmail (some e) st = (QueryResult.ok u.email (some u.name) false 0 0, st)) ∧
      (∀ w : Wallet, (st.wallets.filter (fun w2 => w2.user_id == u.id)) = [w] →
        walletByEmail (some e) st =
          (QueryResult.ok u.email (some u.name) true w.points w.lifetime_points, st))) ∧
    (walletByEmail (some e) st).2 = st := by
  refine ⟨?_, ?_, ?_⟩
  · intro hu
    simp [walletByEmail, he, hu, maybeSingle]
  · intro u hu
    constructor
    · intro hw
      simp [walletByEmail, he, hu, hw, maybeSingle]
    · intro w hw
      simp [walletByEmail, he, hu, hw, maybeSingle]
  · show (walletByEmail (some e) st).2 = st
    unfold walletByEmail
    dsimp only
    rw [if_neg he]
    split
    · rfl
    · rfl
    · split <;> rfl

/-- C9 witness: querying `c1@shop.example` on the fixture store returns
the 5/8 wallet of `Ada`, and the store is unchanged. -/
theorem c9_witness :
    walletByEmail (some "c1@shop.example") stOne =
      (QueryResult.ok (some "c1@shop.example") (some "Ada") true 5 8, stOne) :=
  ((c9_wallet_by_email "c1@shop.example" stOne (by decide)).2.1
      { id := 0, shopify_customer_id := "C1", email := some "c1@shop.example",
        name := "Ada" }
      (by decide)).2
    { id := 1, user_id := 0, points := 5, lifetime_points := 8, updated_at := 2 }
    (by decide)

/-! ### C10 — customer object without an id -/

/-- C10: an authenticated payload whose customer object is present but
lacks an id is not treated as "No customer": the handler answers
`200 "OK"`, upserts the account under the key `"undefined"`
(`String(customer.id)` of a missing id), and credits the point award to
that account — one earn transaction referencing the wallet resolved for
the `"undefined"` account. -/
theorem c10_undefined_id (hmac : String → String → String) (now : Nat) (req : Request)
    (st : Store) (order : OrderPayload) (customer : Customer)
    (hauth : verifyHmac hmac req = Except.ok true)
    (hord : req.payload = some order)
    (hcust : order.customer = some customer)
    (hid : customer.id = none) :
    (ordersPaid hmac now req st).1 = (200, "OK") ∧
    jsStringOfOpt customer.id = "undefined" ∧
    ((upsertUser st (jsStringOfOpt customer.id) customer.email
      (normName customer)).1).shopify_customer_id = "undefined" ∧
    (∃ tid : Nat,
      ((ordersPaid hmac now req st).2).txns =
        st.txns ++
          [{ id := tid, wallet_id := (resolvedWallet st customer).id, type := "earn",
             source := "order", shopify_order_id := jsStringOfOpt order.id,
             points_change := calcPoints order.total_price,
             note := "Points from order" }]) := by
  have hjs : jsStringOfOpt customer.id = "undefined" := by
    rw [hid]
    rfl
  refine ⟨?_, hjs, ?_, ?_⟩
  · rw [ordersPaid_success hmac now req st order customer hauth hord hcust]
  · rw [upsertUser_cid st (jsStringOfOpt customer.id) customer.email (normName customer)]
    exact hjs
  · simp only [ordersPaid_success hmac now req st order customer hauth hord hcust]
    exact applyOrder_txns st order customer now

/-- C10 witness: a signed order whose customer object has only an email
is credited to the `"undefined"` account. -/
theorem c10_witness :
    (ordersPaid hmacSig 3 reqNoIdOrder emptyStore).1 = (200, "OK") ∧
    jsStringOfOpt custNoId.id = "undefined" ∧
    ((upsertUser emptyStore (jsStringOfOpt custNoId.id) custNoId.email
      (normName custNoId)).1).shopify_customer_id = "undefined" ∧
    (∃ tid : Nat,
      ((ordersPaid hmacSig 3 reqNoIdOrder emptyStore).2).txns =
        emptyStore.txns ++
          [{ id := tid, wallet_id := (resolvedWallet emptyStore custNoId).id,
             type := "earn", source := "order",
             shopify_order_id := jsStringOfOpt ordNoId.id,
             points_change := calcPoints ordNoId.total_price,
             note := "Points from order" }]) :=
  c10_undefined_id hmacSig 3 reqNoIdOrder emptyStore ordNoId custNoId rfl rfl rfl rfl

end ThcoWallet
